import Mathlib

/-!
Verification of the WBCD data-gallery front end: URL resolution in the two
viewer adapters (RerunViewer, FoxgloveViewer), the Foxglove embed-URL builder,
the static dataset catalog, the gallery selection state machine, dataset-card
rendering, and the per-source badge-style lookups.

Definitions are shallow embeddings of the JavaScript/JSX source.  Browser
platform APIs used by the source but not part of the repository
(the URL constructor and URLSearchParams serialization) are modelled from the
spec and marked as such in their doc comments.
-/

namespace WbcdGallery

/-! ### Standard URL resolution (browser platform API, modelled) -/

/-- JavaScript `String.prototype.startsWith(pre)`: whether the character
sequence of `pre` is an initial segment of the character sequence of `s`. -/
def jsStartsWith (s pre : String) : Bool :=
  pre.toList.isPrefixOf s.toList

/-- Split a character list at every slash (the splitting done by
`'/'`-separated path handling): n slashes yield n+1 pieces. -/
def splitOnSlash : List Char → List (List Char)
  | [] => [[]]
  | c :: rest =>
      let r := splitOnSlash rest
      if c = '/' then [] :: r
      else
        match r with
        | [] => [[c]]
        | h :: t => (c :: h) :: t

/-- A character allowed inside a URL scheme after the first (RFC 3986):
letters, digits, plus, minus, dot. -/
def isSchemeChar (c : Char) : Bool :=
  c.isAlphanum || c == '+' || c == '-' || c == '.'

/-- Whether a reference string begins with a URL scheme, i.e. a nonempty
run of scheme characters (first one a letter) followed by a colon, with the
colon occurring before any slash. -/
def hasScheme (s : String) : Bool :=
  let cs := s.toList
  let pre := cs.takeWhile (fun c => c != ':')
  decide (pre.length < cs.length) &&
    (match pre with
     | [] => false
     | c :: rest => c.isAlpha && rest.all isSchemeChar)

/-- Remove-dot-segments loop over path components: "." components are dropped,
".." components pop the previous component, others are kept. -/
def dotSegLoop : List String → List String → List String
  | acc, [] => acc.reverse
  | acc, "." :: rest => dotSegLoop acc rest
  | acc, ".." :: rest => dotSegLoop (acc.drop 1) rest
  | acc, s :: rest => dotSegLoop (s :: acc) rest

/-- RFC 3986 remove-dot-segments on an absolute path string (starting
with a slash): collapses "." and ".." components, keeping a trailing slash
when the path ends in "." or "..". -/
def removeDotSegments (p : String) : String :=
  let comps0 := (splitOnSlash p.toList).map String.mk
  let comps := if comps0.head? = some "" then comps0.drop 1 else comps0
  let out := dotSegLoop [] comps
  let trailingSlash :=
    match comps.getLast? with
    | some "." => true
    | some ".." => true
    | _ => false
  "/" ++ String.intercalate "/" out ++ (if trailingSlash then "/" else "")

/-- The directory part of a path: everything up to and including the last
slash; the root slash when the path has no slash. -/
def dirOf (cs : List Char) : List Char :=
  let rev := cs.reverse
  let fromSlash := rev.dropWhile (fun c => c != '/')
  if fromSlash = [] then ['/'] else fromSlash.reverse

/-- Modelled from the spec: the browser URL constructor
`new URL(ref, base).href`, used by both viewer adapters but not part of this
repository.  Per the spec: "Given a relative reference `r` and current page
origin `O`, the resolved URL equals the standard absolute-URL resolution of
`r` against `O`; given an already-absolute reference, resolution is the
identity."  Accordingly: a scheme-bearing reference is returned as-is;
otherwise the reference is resolved against the base (a page location of the
form scheme://authority/path) by the standard merge and remove-dot-segments
steps. -/
def URL_resolve (ref base : String) : String :=
  if hasScheme ref then ref
  else
    let bcs := base.toList
    let scheme := bcs.takeWhile (fun c => c != ':')
    let afterColon := (bcs.dropWhile (fun c => c != ':')).drop 1
    let afterSlashes := afterColon.drop 2
    let auth := afterSlashes.takeWhile (fun c => c != '/')
    let bpath := afterSlashes.dropWhile (fun c => c != '/')
    let origin := String.mk (scheme ++ [':', '/', '/'] ++ auth)
    if jsStartsWith ref "//" then String.mk scheme ++ ":" ++ ref
    else if jsStartsWith ref "/" then origin ++ removeDotSegments ref
    else if ref = "" then base
    else origin ++ removeDotSegments (String.mk (dirOf bpath) ++ ref)

/-! ### URLSearchParams serialization (browser platform API, modelled) -/

/-- Uppercase hexadecimal digit for a value below 16. -/
def hexDigit (n : Nat) : Char :=
  if n < 10 then Char.ofNat (48 + n) else Char.ofNat (65 + (n - 10))

/-- Percent-encoding of one byte: a percent sign and two uppercase hex
digits. -/
def percentByte (b : Nat) : List Char :=
  ['%', hexDigit (b / 16), hexDigit (b % 16)]

/-- UTF-8 byte sequence of a code point. -/
def utf8Bytes (n : Nat) : List Nat :=
  if n < 128 then [n]
  else if n < 2048 then [192 + n / 64, 128 + n % 64]
  else if n < 65536 then [224 + n / 4096, 128 + n / 64 % 64, 128 + n % 64]
  else [240 + n / 262144, 128 + n / 4096 % 64, 128 + n / 64 % 64, 128 + n % 64]

/-- Characters left unencoded by application/x-www-form-urlencoded
serialization: ASCII alphanumerics and asterisk, minus, dot, underscore. -/
def isFormUnreserved (c : Char) : Bool :=
  (c.isAlphanum && c.toNat < 128) || c == '*' || c == '-' || c == '.' || c == '_'

/-- Form-urlencoded encoding of one character: unreserved characters kept,
space becomes a plus sign, everything else percent-encoded byte by byte. -/
def formEncodeChar (c : Char) : List Char :=
  if isFormUnreserved c then [c]
  else if c == ' ' then ['+']
  else List.flatten ((utf8Bytes c.toNat).map percentByte)

/-- Modelled from the spec: the URLSearchParams value serialization used by
the iframe adapter ("percent-encoded" per the spec), not part of this
repository: application/x-www-form-urlencoded encoding of a string. -/
def urlencode (s : String) : String :=
  String.mk (List.flatten (s.toList.map formEncodeChar))

/-- Modelled from the spec: `URLSearchParams.toString()` on an ordered list
of key/value pairs, each pair serialized as encoded key, equals sign, encoded
value, pairs joined by ampersands. -/
def searchParamsToString (ps : List (String × String)) : String :=
  String.intercalate "&" (ps.map (fun p => urlencode p.1 ++ "=" ++ urlencode p.2))

/-! ### RerunViewer adapter (src/unnamed/part_000) -/

/-- What a viewer adapter renders: the "No dataset selected" placeholder or
an embed of the external viewer (embed source plus the raw-reference
overlay). -/
inductive ViewerRender where
  | placeholder (message : String)
  | embed (src : String) (overlay : String)
deriving DecidableEq

/-- The `fullUrl` computation of RerunViewer:
`rrdUrl?.startsWith('http') ? rrdUrl : rrdUrl ? new URL(rrdUrl, window.location.href).href : null`.
A missing reference is `none`; an empty string is falsy in the middle test. -/
def rerunFullUrl (rrdUrl : Option String) (loc : String) : Option String :=
  match rrdUrl with
  | none => none
  | some r =>
      if jsStartsWith r "http" then some r
      else if r = "" then none
      else some (URL_resolve r loc)

/-- RerunViewer's render: the placeholder when `fullUrl` is null, otherwise
the WebViewer embed fed `fullUrl` with the raw `rrdUrl` overlay. -/
def rerunViewerRender (rrdUrl : Option String) (loc : String) : ViewerRender :=
  match rerunFullUrl rrdUrl loc with
  | none => ViewerRender.placeholder "No dataset selected"
  | some u => ViewerRender.embed u (rrdUrl.getD "")

/-! ### FoxgloveViewer adapter (src/umi-gallery/src/components/FoxgloveViewer.jsx) -/

/-- The Foxglove embed endpoint (`baseUrl` in the source). -/
def foxgloveEmbedBase : String := "https://embed.foxglove.dev"

/-- The `fullMcapUrl` computation of FoxgloveViewer on a non-empty reference:
used as-is when it starts with "http", otherwise resolved against the current
page location. -/
def foxgloveResolvedUrl (mcapUrl : String) (loc : String) : String :=
  if jsStartsWith mcapUrl "http" then mcapUrl else URL_resolve mcapUrl loc

/-- The `foxgloveUrl` memo of FoxgloveViewer: null for a missing or empty
reference, otherwise the embed base followed by a question mark and the
serialized parameters ds=remote-file and ds.url=(resolved reference). -/
def foxgloveUrl (mcapUrl : Option String) (loc : String) : Option String :=
  match mcapUrl with
  | none => none
  | some u =>
      if u = "" then none
      else
        some (foxgloveEmbedBase ++ "?" ++
          searchParamsToString [("ds", "remote-file"), ("ds.url", foxgloveResolvedUrl u loc)])

/-- FoxgloveViewer's render: the placeholder when the reference is missing or
empty, otherwise the iframe embed pointed at `foxgloveUrl` with the raw
`mcapUrl` overlay. -/
def foxgloveViewerRender (mcapUrl : Option String) (loc : String) : ViewerRender :=
  match foxgloveUrl mcapUrl loc with
  | none => ViewerRender.placeholder "No dataset selected"
  | some u => ViewerRender.embed u (mcapUrl.getD "")

/-! ### Dataset catalog (src/umi-gallery/src/data/datasets.js and src/unnamed/part_001) -/

/-- The `topics` object of a dataset descriptor: each category key is
optional (absent keys are `none`). -/
structure Topics where
  transforms : Option (List String) := none
  cameras : Option (List String) := none
  scalars : Option (List String) := none
  tactile : Option (List String) := none
deriving DecidableEq

/-- One dataset descriptor of the static catalog. -/
structure Dataset where
  id : String
  name : String
  source : String
  description : String
  thumbnail : String
  rrdUrl : String
  topics : Topics
deriving DecidableEq

/-- The first entry of the current catalog (the Clean Bowl descriptor),
named so concrete instantiations can refer to it. -/
def cleanBowl : Dataset :=
  { id := "genrobot-1"
  , name := "Clean Bowl"
  , source := "Genrobot"
  , description := "Bimanual bowl cleaning task demonstrating coordinated manipulation"
  , thumbnail := "./thumbnails/clean_bowl.jpg"
  , rrdUrl := "./rrd/clean_bowl.rrd"
  , topics :=
    { transforms := some ["/robot0/vio/eef_pose", "/robot1/vio/eef_pose"]
    , cameras := some ["/robot0/sensor/camera0", "/robot1/sensor/camera0"] } }

/-- The static catalog `DATASETS` of src/umi-gallery/src/data/datasets.js. -/
def DATASETS : List Dataset :=
  [ cleanBowl
  , { id := "genrobot-2"
    , name := "Unscrew Bottle Cap and Pour"
    , source := "Genrobot"
    , description := "Fine manipulation task: unscrewing cap and pouring liquid"
    , thumbnail := "./thumbnails/unscrew_bottle_cap_and_pour.jpg"
    , rrdUrl := "./rrd/unscrew_bottle_cap_and_pour.rrd"
    , topics :=
      { transforms := some ["/robot0/vio/eef_pose", "/robot1/vio/eef_pose"]
      , cameras := some ["/robot0/sensor/camera0", "/robot1/sensor/camera0"] } }
  , { id := "dm-insert-1"
    , name := "Memory Cube Insert"
    , source := "DAIMON"
    , description := "Precision insertion task with 8-DOF arm and tactile sensing (DM Robotics)"
    , thumbnail := "./thumbnails/dm_insert_episode_0.jpg"
    , rrdUrl := "./rrd/dm_insert_episode_0.rrd"
    , topics :=
      { cameras := some ["/cameras/top", "/cameras/wrist", "/cameras/tactile"]
      , scalars := some ["/observation/state", "/action"] } }
  , { id := "dm-tacexo-1"
    , name := "Fold Towels (TacExo)"
    , source := "DAIMON"
    , description := "Bimanual glove manipulation with thumb tactile sensing (TacExo)"
    , thumbnail := "./thumbnails/tacexo_fold_towels_episode_0.jpg"
    , rrdUrl := "./rrd/tacexo_fold_towels_episode_0.rrd"
    , topics :=
      { cameras := some ["/cameras/third_view", "/tactile/left_thumb", "/tactile/right_thumb"]
      , scalars := some ["/fingers"] } }
  , { id := "lumos-task-1"
    , name := "Object Packing: Light Bulb"
    , source := "Lumos"
    , description := "Bimanual manipulation task of packing a single light bulb into a small box"
    , thumbnail := "./thumbnails/lumos_task1.jpg"
    , rrdUrl := "./rrd/lumos_task1.rrd"
    , topics :=
      { transforms := some ["world/left_hand/eef", "world/right_hand/eef"]
      , cameras := some ["world/left_hand/camera", "world/right_hand/camera"] } }
  , { id := "lumos-task-2"
    , name := "Object Packing: Cups"
    , source := "Lumos"
    , description := "Pack 2 water cups into a large box"
    , thumbnail := "./thumbnails/lumos_task2.jpg"
    , rrdUrl := "./rrd/lumos_task2.rrd"
    , topics :=
      { transforms := some ["world/left_hand/eef", "world/right_hand/eef"]
      , cameras := some ["world/left_hand/camera", "world/right_hand/camera"] } } ]

/-- The static catalog `DATASETS` of src/unnamed/part_001 (the earlier,
Genrobot-only revision of the catalog file). -/
def DATASETS_v0 : List Dataset :=
  [ { id := "genrobot-1"
    , name := "Clean Bowl"
    , source := "Genrobot"
    , description := "Bimanual bowl cleaning task demonstrating coordinated manipulation"
    , thumbnail := "./thumbnails/clean_bowl.jpg"
    , rrdUrl := "./rrd/clean_bowl.rrd"
    , topics :=
      { transforms := some ["/robot0/vio/eef_pose", "/robot1/vio/eef_pose"]
      , cameras := some ["/robot0/sensor/camera0", "/robot1/sensor/camera0"] } }
  , { id := "genrobot-2"
    , name := "Unscrew Bottle Cap and Pour"
    , source := "Genrobot"
    , description := "Fine manipulation task: unscrewing cap and pouring liquid"
    , thumbnail := "./thumbnails/unscrew_bottle_cap_and_pour.jpg"
    , rrdUrl := "./rrd/unscrew_bottle_cap_and_pour.rrd"
    , topics :=
      { transforms := some ["/robot0/vio/eef_pose", "/robot1/vio/eef_pose"]
      , cameras := some ["/robot0/sensor/camera0", "/robot1/sensor/camera0"] } }
  , { id := "genrobot-3"
    , name := "Zip Clothes"
    , source := "Genrobot"
    , description := "Precision zipping task with deformable garment handling"
    , thumbnail := "./thumbnails/zip_clothes.jpg"
    , rrdUrl := "./rrd/zip_clothes.rrd"
    , topics :=
      { transforms := some ["/robot0/vio/eef_pose", "/robot1/vio/eef_pose"]
      , cameras := some ["/robot0/sensor/camera0", "/robot1/sensor/camera0"] } } ]

/-! ### Gallery controller (src/umi-gallery/src/components/UmiGallery.jsx) -/

/-- The controller's click handler: `setSelectedDataset(dataset)`,
unconditionally replacing the selection state (the scheduled smooth scroll
has no effect on the state). -/
def handleCardClick (dataset : Dataset) (_state : Option Dataset) : Option Dataset :=
  some dataset

/-- The `isActive` flag passed to a card:
`selectedDataset?.id === dataset.id` — false when nothing is selected. -/
def cardIsActive (selectedDataset : Option Dataset) (dataset : Dataset) : Bool :=
  match selectedDataset with
  | none => false
  | some s => s.id == dataset.id

/-- What the viewer region of the controller shows: the static placeholder
panel, or the selected dataset's info, viewer and topic tags. -/
inductive ViewerPanel where
  | placeholderPanel
  | datasetPanel (d : Dataset)
deriving DecidableEq

/-- The controller's viewer-region rendering: the placeholder panel exactly
when `selectedDataset` is null. -/
def viewerRegion (selectedDataset : Option Dataset) : ViewerPanel :=
  match selectedDataset with
  | none => ViewerPanel.placeholderPanel
  | some d => ViewerPanel.datasetPanel d

namespace UmiGallery

/-- Function `getSourceBadgeClass` of UmiGallery.jsx: switch on the source
label with a default class for unrecognized labels. -/
def getSourceBadgeClass (source : String) : String :=
  if source = "Genrobot" then "bg-emerald-100 text-emerald-700"
  else if source = "Lumos" then "bg-amber-100 text-amber-700"
  else if source = "DM Robot" then "bg-violet-100 text-violet-700"
  else "bg-slate-100 text-slate-700"

end UmiGallery

/-! ### Dataset card (src/umi-gallery/src/components/DatasetCard.jsx) -/

namespace DatasetCard

/-- JavaScript `topic.split('/').pop()`: the last slash-separated segment of
a topic path, shown inside a truncated tag. -/
def lastPathSegment (t : String) : String :=
  ((splitOnSlash t.toList).map String.mk).getLastD ""

/-- The truncated topic tags rendered on a card:
`dataset.topics.transforms?.slice(0, 2).map(topic => topic.split('/').pop())`. -/
def cardTopicTags (d : Dataset) : List String :=
  ((d.topics.transforms.getD []).take 2).map lastPathSegment

/-- Whether the card additionally shows the static "tactile" category chip:
`dataset.topics.tactile && ...` — present exactly when the `tactile` key
exists (a JavaScript array is truthy even when empty). -/
def cardHasTactileChip (d : Dataset) : Bool :=
  d.topics.tactile.isSome

/-- Function `getSourceBadgeClass` of DatasetCard.jsx: switch on the source
label with a default class for unrecognized labels. -/
def getSourceBadgeClass (source : String) : String :=
  if source = "Genrobot" then "bg-emerald-500/90 text-white"
  else if source = "Lumos" then "bg-amber-500/90 text-white"
  else if source = "DM Robot" then "bg-violet-500/90 text-white"
  else "bg-slate-500/90 text-white"

end DatasetCard

/-! ### Theorems -/

/-- C1 (counterexample): the claim fails as stated.  The reference
"httpdocs/a.rrd" is non-empty, does not begin with a scheme, yet RerunViewer
uses it verbatim instead of resolving it against the page location
"https://example.org/gallery/", because the adapters test the four-character
text "http", not a scheme. -/
theorem relative_ref_scheme_counterexample :
    hasScheme "httpdocs/a.rrd" = false ∧
    rerunFullUrl (some "httpdocs/a.rrd") "https://example.org/gallery/"
      = some "httpdocs/a.rrd" ∧
    URL_resolve "httpdocs/a.rrd" "https://example.org/gallery/"
      = "https://example.org/gallery/httpdocs/a.rrd" ∧
    rerunFullUrl (some "httpdocs/a.rrd") "https://example.org/gallery/"
      ≠ some (URL_resolve "httpdocs/a.rrd" "https://example.org/gallery/") :=
  ⟨by decide, by decide, by decide, by decide⟩

/-- C1 (amended): for every non-empty file reference that does not begin with
the four characters "http" and every page location, both adapters resolve the
reference to the standard absolute-URL resolution against that location; in
particular "./rrd/clean_bowl.rrd" against "https://example.org/gallery/"
resolves to "https://example.org/gallery/rrd/clean_bowl.rrd". -/
theorem relative_ref_resolution (r loc : String) (h1 : r ≠ "")
    (h2 : jsStartsWith r "http" = false) :
    rerunFullUrl (some r) loc = some (URL_resolve r loc) ∧
    foxgloveResolvedUrl r loc = URL_resolve r loc ∧
    URL_resolve "./rrd/clean_bowl.rrd" "https://example.org/gallery/"
      = "https://example.org/gallery/rrd/clean_bowl.rrd" := by
  refine ⟨?_, ?_, by decide⟩
  · simp [rerunFullUrl, h1, h2]
  · simp [foxgloveResolvedUrl, h2]

/-- C1 (witness): the amended statement instantiated at the reference
"./rrd/clean_bowl.rrd" and location "https://example.org/gallery/". -/
theorem relative_ref_resolution_witness :
    rerunFullUrl (some "./rrd/clean_bowl.rrd") "https://example.org/gallery/"
      = some (URL_resolve "./rrd/clean_bowl.rrd" "https://example.org/gallery/") ∧
    foxgloveResolvedUrl "./rrd/clean_bowl.rrd" "https://example.org/gallery/"
      = URL_resolve "./rrd/clean_bowl.rrd" "https://example.org/gallery/" ∧
    URL_resolve "./rrd/clean_bowl.rrd" "https://example.org/gallery/"
      = "https://example.org/gallery/rrd/clean_bowl.rrd" :=
  relative_ref_resolution "./rrd/clean_bowl.rrd" "https://example.org/gallery/"
    (by decide) (by decide)

/-- C2: a scheme-bearing file reference is used as-is by both adapters: the
resolved URL equals the input reference (references starting with "http" are
returned verbatim by the prefix test; other scheme-bearing references pass
through the URL constructor, which is the identity on absolute
references). -/
theorem scheme_ref_identity (r loc : String) (h : hasScheme r = true) :
    rerunFullUrl (some r) loc = some r ∧ foxgloveResolvedUrl r loc = r := by
  have hne : r ≠ "" := by
    intro he
    rw [he] at h
    exact absurd h (by decide)
  constructor
  · by_cases hs : jsStartsWith r "http"
    · simp [rerunFullUrl, hs]
    · simp [rerunFullUrl, hs, hne, URL_resolve, h]
  · by_cases hs : jsStartsWith r "http"
    · simp [foxgloveResolvedUrl, hs]
    · simp [foxgloveResolvedUrl, hs, URL_resolve, h]

/-- C2 (witness): the identity instantiated at the non-http scheme-bearing
reference "ftp://x/a.rrd" and location "https://example.org/gallery/". -/
theorem scheme_ref_identity_witness :
    rerunFullUrl (some "ftp://x/a.rrd") "https://example.org/gallery/"
      = some "ftp://x/a.rrd" ∧
    foxgloveResolvedUrl "ftp://x/a.rrd" "https://example.org/gallery/"
      = "ftp://x/a.rrd" :=
  scheme_ref_identity "ftp://x/a.rrd" "https://example.org/gallery/" (by decide)

/-- C3 (counterexample): the claim fails as stated.  For input
"https://x/a.mcap" the adapter produces the target URL with no slash between
the embed base and the question mark, so the produced URL differs from the
claimed "https://embed.foxglove.dev/?ds=remote-file&ds.url=...". -/
theorem foxglove_embed_url_counterexample :
    foxgloveUrl (some "https://x/a.mcap") "https://example.org/gallery/"
      = some "https://embed.foxglove.dev?ds=remote-file&ds.url=https%3A%2F%2Fx%2Fa.mcap" ∧
    ("https://embed.foxglove.dev?ds=remote-file&ds.url=https%3A%2F%2Fx%2Fa.mcap" : String)
      ≠ "https://embed.foxglove.dev/?ds=remote-file&ds.url=https%3A%2F%2Fx%2Fa.mcap" :=
  ⟨by decide, by decide⟩

/-- C3 (amended): for every non-empty reference, FoxgloveViewer builds its
target URL by appending a question mark and exactly the two serialized query
parameters ds=remote-file and ds.url=(percent-encoded resolved URL) to the
embed base "https://embed.foxglove.dev", with no slash before the question
mark. -/
theorem foxglove_embed_url (u loc : String) (h : u ≠ "") :
    foxgloveUrl (some u) loc
      = some ("https://embed.foxglove.dev?ds=remote-file&ds.url="
          ++ urlencode (foxgloveResolvedUrl u loc)) := by
  simp only [foxgloveUrl, if_neg h]
  rfl

/-- C3 (witness): the amended statement instantiated at the absolute URL
"https://x/a.mcap". -/
theorem foxglove_embed_url_witness :
    foxgloveUrl (some "https://x/a.mcap") "https://example.org/gallery/"
      = some ("https://embed.foxglove.dev?ds=remote-file&ds.url="
          ++ urlencode (foxgloveResolvedUrl "https://x/a.mcap" "https://example.org/gallery/")) :=
  foxglove_embed_url "https://x/a.mcap" "https://example.org/gallery/" (by decide)

/-- C4: the controller's click handler moves to Selected(descriptor)
unconditionally; two clicks with different descriptors give
NoSelection, Selected(X), Selected(Y) in sequence, and re-clicking the same
descriptor is idempotent. -/
theorem selectDataset_unconditional :
    (∀ (d : Dataset) (s : Option Dataset), handleCardClick d s = some d) ∧
    (∀ (X Y : Dataset), handleCardClick Y (handleCardClick X none) = some Y) ∧
    (∀ (X : Dataset) (s : Option Dataset),
        handleCardClick X (handleCardClick X s) = handleCardClick X s) :=
  ⟨fun _ _ => rfl, fun _ _ => rfl, fun _ _ => rfl⟩

/-- C5: for a missing (null/undefined) or empty file reference, each adapter
renders the "No dataset selected" placeholder instead of an embed, both
adapters render the same placeholder, and the render functions are total (no
exception). -/
theorem missing_ref_placeholder (loc : String) :
    rerunViewerRender none loc = ViewerRender.placeholder "No dataset selected" ∧
    rerunViewerRender (some "") loc = ViewerRender.placeholder "No dataset selected" ∧
    foxgloveViewerRender none loc = ViewerRender.placeholder "No dataset selected" ∧
    foxgloveViewerRender (some "") loc = ViewerRender.placeholder "No dataset selected" ∧
    rerunViewerRender none loc = foxgloveViewerRender none loc ∧
    rerunViewerRender (some "") loc = foxgloveViewerRender (some "") loc :=
  ⟨rfl, rfl, rfl, rfl, rfl, rfl⟩

/-- C6: in the initial NoSelection state the controller renders the static
placeholder panel in the viewer region, and the isActive flag passed to every
dataset card is false. -/
theorem noSelection_render :
    viewerRegion none = ViewerPanel.placeholderPanel ∧
    ∀ (d : Dataset), cardIsActive none d = false :=
  ⟨rfl, fun _ => rfl⟩

/-- C7: every descriptor id is unique across the static catalog, in both the
current catalog file and the earlier revision; the catalogs are fixed lists
of record constants, so no descriptor is created, mutated or destroyed. -/
theorem catalog_ids_unique :
    (DATASETS.map Dataset.id).Nodup ∧ (DATASETS_v0.map Dataset.id).Nodup :=
  ⟨by decide, by decide⟩

/-- C8: every dataset card renders at most two truncated topic tags, and each
tag is drawn from the descriptor's topics mapping (the last path segment of a
transforms topic). -/
theorem card_topic_tags_bounded (d : Dataset) :
    (DatasetCard.cardTopicTags d).length ≤ 2 ∧
    ∀ t ∈ DatasetCard.cardTopicTags d,
      ∃ s ∈ d.topics.transforms.getD [], t = DatasetCard.lastPathSegment s := by
  constructor
  · simp only [DatasetCard.cardTopicTags, List.length_map, List.length_take]
    exact min_le_left _ _
  · intro t ht
    simp only [DatasetCard.cardTopicTags, List.mem_map] at ht
    obtain ⟨s, hs, rfl⟩ := ht
    exact ⟨s, List.take_subset _ _ hs, rfl⟩

/-- C8 (witness): the bound and provenance instantiated at the Clean Bowl
descriptor and its rendered tag "eef_pose". -/
theorem card_topic_tags_bounded_witness :
    (DatasetCard.cardTopicTags cleanBowl).length ≤ 2 ∧
    ∃ s ∈ cleanBowl.topics.transforms.getD [],
      "eef_pose" = DatasetCard.lastPathSegment s :=
  ⟨(card_topic_tags_bounded cleanBowl).1,
   (card_topic_tags_bounded cleanBowl).2 "eef_pose" (by decide)⟩

/-- C9: both badge-style lookups are total: every string outside the closed
set of known provider labels (Genrobot, Lumos, DM Robot) maps to the one
generic default style, the known labels map to pairwise distinct styles that
also differ from the default, and the catalog label "DAIMON" gets the
default. -/
theorem sourceBadge_total_lookup :
    (∀ s : String, s ≠ "Genrobot" → s ≠ "Lumos" → s ≠ "DM Robot" →
        UmiGallery.getSourceBadgeClass s = "bg-slate-100 text-slate-700" ∧
        DatasetCard.getSourceBadgeClass s = "bg-slate-500/90 text-white") ∧
    ([UmiGallery.getSourceBadgeClass "Genrobot", UmiGallery.getSourceBadgeClass "Lumos",
      UmiGallery.getSourceBadgeClass "DM Robot", "bg-slate-100 text-slate-700"] : List String).Nodup ∧
    ([DatasetCard.getSourceBadgeClass "Genrobot", DatasetCard.getSourceBadgeClass "Lumos",
      DatasetCard.getSourceBadgeClass "DM Robot", "bg-slate-500/90 text-white"] : List String).Nodup ∧
    UmiGallery.getSourceBadgeClass "DAIMON" = "bg-slate-100 text-slate-700" ∧
    DatasetCard.getSourceBadgeClass "DAIMON" = "bg-slate-500/90 text-white" := by
  refine ⟨fun s h1 h2 h3 => ?_, by decide, by decide, by decide, by decide⟩
  constructor
  · simp [UmiGallery.getSourceBadgeClass, h1, h2, h3]
  · simp [DatasetCard.getSourceBadgeClass, h1, h2, h3]

/-- C9 (witness): the default-style case instantiated at the catalog label
"DAIMON". -/
theorem sourceBadge_total_lookup_witness :
    UmiGallery.getSourceBadgeClass "DAIMON" = "bg-slate-100 text-slate-700" ∧
    DatasetCard.getSourceBadgeClass "DAIMON" = "bg-slate-500/90 text-white" :=
  sourceBadge_total_lookup.1 "DAIMON" (by decide) (by decide) (by decide)

/-- C10: the absolute-reference test of both adapters is a plain "http"
prefix test on the reference text, not a scheme test: every reference
beginning with the four characters "http" is used verbatim (including the
scheme-less relative path "httpdocs/a.rrd"), while a reference with a
non-http scheme such as "ftp://x/a.rrd" is instead passed to resolution
against the current page location. -/
theorem http_prefix_check :
    (∀ (r loc : String), jsStartsWith r "http" = true →
        rerunFullUrl (some r) loc = some r ∧ foxgloveResolvedUrl r loc = r) ∧
    (∀ loc : String,
        rerunFullUrl (some "ftp://x/a.rrd") loc
          = some (URL_resolve "ftp://x/a.rrd" loc) ∧
        foxgloveResolvedUrl "ftp://x/a.rrd" loc
          = URL_resolve "ftp://x/a.rrd" loc) ∧
    jsStartsWith "httpdocs/a.rrd" "http" = true ∧
    hasScheme "httpdocs/a.rrd" = false ∧
    rerunFullUrl (some "httpdocs/a.rrd") "https://example.org/gallery/"
      = some "httpdocs/a.rrd" := by
  have hf : jsStartsWith "ftp://x/a.rrd" "http" = false := by decide
  refine ⟨fun r loc h => ⟨?_, ?_⟩, fun loc => ⟨?_, ?_⟩, by decide, by decide, by decide⟩
  · simp [rerunFullUrl, h]
  · simp [foxgloveResolvedUrl, h]
  · simp [rerunFullUrl, hf]
  · simp [foxgloveResolvedUrl, hf]

/-- C10 (witness): the prefix test instantiated at the scheme-less reference
"httpdocs/a.rrd", which is used verbatim. -/
theorem http_prefix_check_witness :
    rerunFullUrl (some "httpdocs/a.rrd") "https://example.org/gallery/"
      = some "httpdocs/a.rrd" ∧
    foxgloveResolvedUrl "httpdocs/a.rrd" "https://example.org/gallery/"
      = "httpdocs/a.rrd" :=
  http_prefix_check.1 "httpdocs/a.rrd" "https://example.org/gallery/" (by decide)

end WbcdGallery
